import Mathlib

/-!
# Shallow embedding of `utils/pointnet2_utils.py` (Pointnet2_PyTorch)

The Python file wraps external CUDA kernels as autograd `Function`s.  This
development models the *wrapper layer* faithfully:

* A tensor is modelled by its shape, dtype, contiguity flag, and contents.
  Contents are an abstract map from a multi-index to an integer value: no
  claim depends on floating-point arithmetic, only on which buffers are
  zero-initialized, so an abstract integer carrier is adequate.
* The external kernels (`pointnet.*`, `pointnet2.*`) write into a
  pre-allocated buffer in place and return it.  Each kernel call is modelled
  by an arbitrary fill function `List Nat → Int` (universally quantified in
  every theorem), applied to the buffer: it may change the contents
  arbitrarily but not the shape, dtype, or contiguity — exactly what an
  in-place CUDA kernel can do to the tensor object it is handed.
* Python failure modes present in this layer are modelled explicitly:
  `assert` raising `AssertionError`, tuple-unpacking of `.size()` raising
  `ValueError` on a rank mismatch, and — crucially — resolution of a module
  name.  The file's imports bind `pointnet` but never `pointnet2`, so every
  attribute access `pointnet2.…` raises `NameError` when the line executes.
* Uninitialized allocation (`torch.cuda.FloatTensor(B, C, N)`) returns a
  buffer holding whatever garbage was in memory; the garbage contents are a
  parameter `garbage : List Nat → Int` of each model, universally
  quantified, while `.zero_()` overwrites the contents with zeros.
-/

/-- Numeric dtype of a tensor: `torch.cuda.FloatTensor` vs `torch.cuda.IntTensor`. -/
inductive DType where
  | float32
  | int32
  deriving DecidableEq, Repr

/-- A tensor: shape, dtype, contiguity flag, and abstract contents indexed by a
multi-index.  Contents of both float and int tensors live in `Int` since no
claim depends on real floating-point values. -/
structure Tensor where
  shape : List Nat
  dtype : DType
  contiguous : Bool
  data : List Nat → Int

/-- Python exceptions observable in this layer. -/
inductive PyErr where
  /-- A failed `assert` statement. -/
  | assertionError
  /-- An unresolvable bare name, e.g. `pointnet2` when only `pointnet` is imported. -/
  | nameError (missing : String)
  /-- Tuple-unpacking mismatch such as `B, C, N = t.size()` on a tensor of another rank. -/
  | valueError
  deriving DecidableEq, Repr

/-- A Python value as far as the wrapper's return statements go: a tensor, or a
bare function object (the `use_xyz=False` branch of `QueryAndGroup.forward`
returns the function `group_points` itself). -/
inductive PyVal where
  | tensor (t : Tensor)
  | pyFunction (pyname : String)

/-- The module-level names bound by the import statements at the top of
`pointnet2_utils.py` (lines 1-11).  `pointnet` is imported; `pointnet2` is not. -/
def importedNames : List String :=
  ["torch", "Variable", "Function", "F", "nn", "pdist2", "PDist2Order",
   "namedtuple", "pt_utils", "List", "Tuple", "pointnet"]

/-- Executing a line that mentions a bare module name: succeeds when the name is
bound by an import, raises `NameError` otherwise. -/
def resolveName (n : String) : Except PyErr Unit :=
  if importedNames.contains n then .ok () else .error (PyErr.nameError n)

/-- A Python `assert cond`: no-op when `cond` holds, raises `AssertionError` otherwise. -/
def pyAssert (cond : Bool) : Except PyErr Unit :=
  if cond then .ok () else .error PyErr.assertionError

/-- `t.size(i)` — the `i`-th dimension of the shape. -/
def Tensor.size (t : Tensor) (i : Nat) : Nat :=
  t.shape.getD i 0

/-- `a, b = t.size()` — rank-2 tuple unpacking, `ValueError` on any other rank. -/
def size2 (t : Tensor) : Except PyErr (Nat × Nat) :=
  match t.shape with
  | [a, b] => .ok (a, b)
  | _ => .error PyErr.valueError

/-- `a, b, c = t.size()` — rank-3 tuple unpacking, `ValueError` on any other rank. -/
def size3 (t : Tensor) : Except PyErr (Nat × Nat × Nat) :=
  match t.shape with
  | [a, b, c] => .ok (a, b, c)
  | _ => .error PyErr.valueError

/-- `a, b, c, d = t.size()` — rank-4 tuple unpacking, `ValueError` on any other rank. -/
def size4 (t : Tensor) : Except PyErr (Nat × Nat × Nat × Nat) :=
  match t.shape with
  | [a, b, c, d] => .ok (a, b, c, d)
  | _ => .error PyErr.valueError

/-- `torch.cuda.FloatTensor(shape…)`: a fresh contiguous float buffer whose
contents are uninitialized memory garbage. -/
def cudaFloatTensor (shape : List Nat) (garbage : List Nat → Int) : Tensor :=
  { shape := shape, dtype := DType.float32, contiguous := true, data := garbage }

/-- `torch.cuda.IntTensor(shape…)`: a fresh contiguous int buffer whose
contents are uninitialized memory garbage. -/
def cudaIntTensor (shape : List Nat) (garbage : List Nat → Int) : Tensor :=
  { shape := shape, dtype := DType.int32, contiguous := true, data := garbage }

/-- `t.zero_()`: overwrite the contents with zeros in place. -/
def Tensor.zeroFill (t : Tensor) : Tensor :=
  { t with data := fun _ => 0 }

/-- `t.contiguous()`: a contiguous tensor with the same contents. -/
def Tensor.contiguousView (t : Tensor) : Tensor :=
  { t with contiguous := true }

/-- An external CUDA kernel writing into the buffer it is handed: contents are
replaced by whatever the kernel computes (the arbitrary `f`), while shape,
dtype, and contiguity of the buffer object are untouched. -/
def kernelFill (f : List Nat → Int) (buf : Tensor) : Tensor :=
  { buf with data := f }

/-- `torch.sqrt(t)` elementwise, on the abstract integer carrier. -/
def torchSqrt (t : Tensor) : Tensor :=
  { t with data := fun i => Int.sqrt (t.data i) }

/-- `t.transpose(d1, d2)`: swap two dimensions; the result is a non-contiguous view. -/
def Tensor.transpose (t : Tensor) (d1 d2 : Nat) : Tensor :=
  { t with
    shape := (t.shape.set d1 (t.shape.getD d2 0)).set d2 (t.shape.getD d1 0),
    contiguous := false,
    data := fun i => t.data ((i.set d1 (i.getD d2 0)).set d2 (i.getD d1 0)) }

/-- `t.unsqueeze(-1)`: append a trailing dimension of extent 1. -/
def Tensor.unsqueezeLast (t : Tensor) : Tensor :=
  { t with
    shape := t.shape ++ [1],
    data := fun i => t.data (i.take t.shape.length) }

/-- Map an index of the output of a broadcast operation to an index into an
operand of shape `bshape` (dimensions of extent 1 are broadcast). -/
def broadcastIdx (bshape idx : List Nat) : List Nat :=
  (bshape.zip idx).map fun p => if p.1 = 1 then 0 else p.2

/-- `a - b` with broadcasting of `b`, as in `grouped_xyz -= new_xyz.transpose(1, 2).unsqueeze(-1)`. -/
def Tensor.sub (a b : Tensor) : Tensor :=
  { a with data := fun i => a.data i - b.data (broadcastIdx b.shape i) }

/-- `torch.cat([a, b], dim=1)`. -/
def torchCat1 (a b : Tensor) : Tensor :=
  { shape := a.shape.set 1 (a.size 1 + b.size 1),
    dtype := a.dtype,
    contiguous := true,
    data := fun i =>
      if i.getD 1 0 < a.size 1 then a.data i
      else b.data (i.set 1 (i.getD 1 0 - a.size 1)) }

/-- `FurthestPointSampling.forward(ctx, xyz, npoint)` (lines 30-52): allocate an
uninitialized `IntTensor(xyz.size(0), npoint)` and let `pointnet.furthest_point_sampling`
fill it in place.  No contiguity assertion is performed. -/
def FurthestPointSampling.forward (kfill garbage : List Nat → Int)
    (xyz : Tensor) (npoint : Nat) : Except PyErr Tensor := do
  let output := cudaIntTensor [xyz.size 0, npoint] garbage
  let _ ← resolveName "pointnet"
  let output := kernelFill kfill output
  return output

/-- `FurthestPointSampling.backward(xyz, a=None)` (lines 54-56): `return None, None`. -/
def FurthestPointSampling.backward (xyz a : Option Tensor) :
    Option Tensor × Option Tensor :=
  (none, none)

/-- `GatherPoints.forward(ctx, points, idx)` (lines 64-89): unpack
`B, C, N = points.size()`, allocate `FloatTensor(B, C, idx.size(1))`, let
`pointnet.gather_points` fill it, then save `ctx.for_backwards = (idx, C, N)`.
Returns the (result-or-error, saved context) pair; no contiguity assertion. -/
def GatherPoints.forward (kfill garbage : List Nat → Int) (points idx : Tensor) :
    Except PyErr Tensor × Option (Tensor × Nat × Nat) :=
  match size3 points with
  | .error e => (.error e, none)
  | .ok (B, C, N) =>
    let output := cudaFloatTensor [B, C, idx.size 1] garbage
    match resolveName "pointnet" with
    | .error e => (.error e, none)
    | .ok _ =>
      let output := kernelFill kfill output
      (.ok output, some (idx, C, N))

/-- The gradient buffer `GatherPoints.backward` hands to `pointnet.gather_points_grad`
(line 96): `torch.cuda.FloatTensor(B, C, N)` — freshly allocated, NOT zeroed. -/
def GatherPoints.gradBuffer (B C N : Nat) (garbage : List Nat → Int) : Tensor :=
  cudaFloatTensor [B, C, N] garbage

/-- `GatherPoints.backward(ctx, grad_out)` (lines 91-100): rebuild `(idx, C, N)`
from the saved context, unpack `B, npoint = idx.size()`, pass an uninitialized
buffer to `pointnet.gather_points_grad`, and `return grad_points, None`.
The `print(grad_points)` on line 98 is I/O and not modelled. -/
def GatherPoints.backward (kfill garbage : List Nat → Int)
    (ctx : Tensor × Nat × Nat) (grad_out : Tensor) :
    Except PyErr (Option Tensor × Option Tensor) := do
  let (idx, C, N) := ctx
  let (B, _npoint) ← size2 idx
  let grad_points := GatherPoints.gradBuffer B C N garbage
  let _ ← resolveName "pointnet"
  let grad_points := kernelFill kfill grad_points
  return (some grad_points, none)

/-- `ThreeNN.forward(ctx, unknown, known)` (lines 108-137): assert both inputs
contiguous, unpack `B, N, _ = unknown.size()`, allocate `dist2` and `idx`
buffers, then execute `pointnet2.three_nn_wrapper(...)` — `pointnet2` is an
unbound name, so this line raises `NameError`.  The `torch.sqrt(dist2)` on the
return line is modelled but unreachable. -/
def ThreeNN.forward (kfd kfi garbage : List Nat → Int) (unknown known : Tensor) :
    Except PyErr (Tensor × Tensor) := do
  let _ ← pyAssert unknown.contiguous
  let _ ← pyAssert known.contiguous
  let (B, N, _) ← size3 unknown
  let _m := known.size 1
  let dist2 := cudaFloatTensor [B, N, 3] garbage
  let idx := cudaIntTensor [B, N, 3] garbage
  let _ ← resolveName "pointnet2"
  let dist2 := kernelFill kfd dist2
  let idx := kernelFill kfi idx
  return (torchSqrt dist2, idx)

/-- `ThreeNN.backward(ctx, a=None, b=None)` (lines 139-141): `return None, None`. -/
def ThreeNN.backward (a b : Option Tensor) : Option Tensor × Option Tensor :=
  (none, none)

/-- `ThreeInterpolate.forward(ctx, points, idx, weight)` (lines 149-184): assert
all three inputs contiguous, unpack `B, c, m = points.size()`, save
`ctx.three_interpolate_for_backward = (idx, weight, m)` — the index tensor, the
WEIGHT TENSOR, and a shape — allocate the output, then execute
`pointnet2.three_interpolate_wrapper(...)`, which raises `NameError`.  The
context is saved on line 176, before the failing line 180; the pair returned
here is (result-or-error, saved context). -/
def ThreeInterpolate.forward (kfill garbage : List Nat → Int)
    (points idx weight : Tensor) :
    Except PyErr Tensor × Option (Tensor × Tensor × Nat) :=
  if points.contiguous then
    if idx.contiguous then
      if weight.contiguous then
        match size3 points with
        | .error e => (.error e, none)
        | .ok (B, c, m) =>
          let n := idx.size 1
          let ctx := (idx, weight, m)
          let output := cudaFloatTensor [B, c, n] garbage
          match resolveName "pointnet2" with
          | .error e => (.error e, some ctx)
          | .ok _ =>
            let output := kernelFill kfill output
            (.ok output, some ctx)
      else (.error PyErr.assertionError, none)
    else (.error PyErr.assertionError, none)
  else (.error PyErr.assertionError, none)

/-- The gradient buffer `ThreeInterpolate.backward` prepares for
`pointnet2.three_interpolate_grad_wrapper` (line 207):
`torch.cuda.FloatTensor(B, c, m).zero_()` — zero-initialized. -/
def ThreeInterpolate.gradBuffer (B c m : Nat) (garbage : List Nat → Int) : Tensor :=
  (cudaFloatTensor [B, c, m] garbage).zeroFill

/-- `ThreeInterpolate.backward(ctx, grad_out)` (lines 186-214): rebuild
`(idx, weight, m)`, unpack `B, c, n = grad_out.size()`, zero-initialize the
gradient buffer, then execute `pointnet2.three_interpolate_grad_wrapper(...)`,
which raises `NameError` before the `return grad_points, None, None`. -/
def ThreeInterpolate.backward (kfill garbage : List Nat → Int)
    (ctx : Tensor × Tensor × Nat) (grad_out : Tensor) :
    Except PyErr (Option Tensor × Option Tensor × Option Tensor) := do
  let (_idx, _weight, m) := ctx
  let (B, c, _n) ← size3 grad_out
  let grad_points := ThreeInterpolate.gradBuffer B c m garbage
  let _grad_out_data := grad_out.contiguousView
  let _ ← resolveName "pointnet2"
  let grad_points := kernelFill kfill grad_points
  return (some grad_points, none, none)

/-- `GroupPoints.forward(ctx, points, idx)` (lines 222-251): assert both inputs
contiguous, unpack `B, npoints, nsample = idx.size()` and `_, C, N = points.size()`,
allocate the output, then execute `pointnet2.group_points_wrapper(...)`, which
raises `NameError`; the save `ctx.for_backwards = (idx, N)` on line 250 sits
after the failing line and is never reached. -/
def GroupPoints.forward (kfill garbage : List Nat → Int) (points idx : Tensor) :
    Except PyErr Tensor × Option (Tensor × Nat) :=
  if points.contiguous then
    if idx.contiguous then
      match size3 idx with
      | .error e => (.error e, none)
      | .ok (B, npoints, nsample) =>
        match size3 points with
        | .error e => (.error e, none)
        | .ok (_, C, N) =>
          let output := cudaFloatTensor [B, C, npoints, nsample] garbage
          match resolveName "pointnet2" with
          | .error e => (.error e, none)
          | .ok _ =>
            let output := kernelFill kfill output
            (.ok output, some (idx, N))
    else (.error PyErr.assertionError, none)
  else (.error PyErr.assertionError, none)

/-- The gradient buffer `GroupPoints.backward` prepares for
`pointnet2.group_points_grad_wrapper` (line 272):
`torch.cuda.FloatTensor(B, C, N).zero_()` — zero-initialized. -/
def GroupPoints.gradBuffer (B C N : Nat) (garbage : List Nat → Int) : Tensor :=
  (cudaFloatTensor [B, C, N] garbage).zeroFill

/-- `GroupPoints.backward(ctx, grad_out)` (lines 253-279): rebuild `(idx, N)`,
unpack `B, C, npoint, nsample = grad_out.size()`, zero-initialize the gradient
buffer, then execute `pointnet2.group_points_grad_wrapper(...)`, which raises
`NameError` before the `return grad_points, None`. -/
def GroupPoints.backward (kfill garbage : List Nat → Int)
    (ctx : Tensor × Nat) (grad_out : Tensor) :
    Except PyErr (Option Tensor × Option Tensor) := do
  let (_idx, N) := ctx
  let (B, C, _npoint, _nsample) ← size4 grad_out
  let grad_points := GroupPoints.gradBuffer B C N garbage
  let _grad_out_data := grad_out.contiguousView
  let _ ← resolveName "pointnet2"
  let grad_points := kernelFill kfill grad_points
  return (some grad_points, none)

/-- `BallQuery.forward(ctx, radius, nsample, xyz, new_xyz)` (lines 287-312):
allocate `idx = torch.cuda.IntTensor(xyz.size(0), new_xyz.size(1), 3)` — the
last dimension is the literal 3, not `nsample` — and let `pointnet.ball_query`
fill it in place.  No contiguity assertion is performed. -/
def BallQuery.forward (kfill garbage : List Nat → Int) (radius : Rat)
    (nsample : Nat) (xyz new_xyz : Tensor) : Except PyErr Tensor := do
  let idx := cudaIntTensor [xyz.size 0, new_xyz.size 1, 3] garbage
  let _ ← resolveName "pointnet"
  let idx := kernelFill kfill idx
  return idx

/-- `BallQuery.backward(ctx, a=None)` (lines 314-316): `return None, None, None, None`. -/
def BallQuery.backward (a : Option Tensor) :
    Option Tensor × Option Tensor × Option Tensor × Option Tensor :=
  (none, none, none, none)

/-- The `QueryAndGroup` module's constructor state (lines 334-336). -/
structure QueryAndGroup where
  radius : Rat
  nsample : Nat
  use_xyz : Bool

/-- `QueryAndGroup.forward(self, xyz, new_xyz, points)` (lines 338-375): chain
`ball_query` → `transpose(1,2).contiguous()` → `group_points` → subtract the
centers → optionally `group_points` on the features and `torch.cat([...], dim=1)`.
When `use_xyz` is false the source assigns `new_points = group_points` — the
function object itself, not `grouped_points`.  Each `kfill…` argument stands for
the corresponding external kernel invocation's in-place write. -/
def QueryAndGroup.forward (self : QueryAndGroup)
    (kfillBQ kfillG1 kfillG2 garbage : List Nat → Int)
    (xyz new_xyz : Tensor) (points : Option Tensor) : Except PyErr PyVal := do
  let idx ← BallQuery.forward kfillBQ garbage self.radius self.nsample xyz new_xyz
  let xyz_trans := (xyz.transpose 1 2).contiguousView
  let grouped_xyz ← (GroupPoints.forward kfillG1 garbage xyz_trans idx).1
  let grouped_xyz := grouped_xyz.sub ((new_xyz.transpose 1 2).unsqueezeLast)
  match points with
  | some pts => do
    let grouped_points ← (GroupPoints.forward kfillG2 garbage pts idx).1
    if self.use_xyz then
      return PyVal.tensor (torchCat1 grouped_xyz grouped_points)
    else
      return PyVal.pyFunction "group_points"
  | none => return PyVal.tensor grouped_xyz

/-- A concrete contiguous float tensor of a given shape, contents all zero. -/
def exTensorF (shape : List Nat) : Tensor :=
  { shape := shape, dtype := DType.float32, contiguous := true, data := fun _ => 0 }

/-- A concrete NON-contiguous float tensor of a given shape. -/
def exTensorNC (shape : List Nat) : Tensor :=
  { shape := shape, dtype := DType.float32, contiguous := false, data := fun _ => 0 }

/-- A concrete contiguous int tensor of a given shape, contents all zero. -/
def exTensorI (shape : List Nat) : Tensor :=
  { shape := shape, dtype := DType.int32, contiguous := true, data := fun _ => 0 }

/-- The zero fill function, used to instantiate kernel and garbage parameters. -/
def zeroF : List Nat → Int := fun _ => 0

/-- The all-ones fill function, a concrete non-zero memory-garbage pattern. -/
def oneF : List Nat → Int := fun _ => 1

theorem resolve_pointnet : resolveName "pointnet" = .ok () := rfl

theorem resolve_pointnet2 :
    resolveName "pointnet2" = .error (PyErr.nameError "pointnet2") := rfl

theorem pyBindOk {α β : Type} (a : α) (f : α → Except PyErr β) :
    (Except.ok a : Except PyErr α) >>= f = f a := rfl

theorem pyBindErr {α β : Type} (e : PyErr) (f : α → Except PyErr β) :
    (Except.error e : Except PyErr α) >>= f = Except.error e := rfl

theorem pyMapOk {α β : Type} (g : α → β) (a : α) :
    g <$> (Except.ok a : Except PyErr α) = Except.ok (g a) := rfl

theorem pyMapErr {α β : Type} (g : α → β) (e : PyErr) :
    g <$> (Except.error e : Except PyErr α) = Except.error e := rfl

theorem pyIsOk {α : Type} (a : α) : (Except.ok a : Except PyErr α).isOk = true := rfl

/-- Claim C6 (confirmed): for every call to the furthest-point sampling
operator with points of shape (B, N, 3) and sample count k, the returned index
tensor has shape (B, k) — whatever the external kernel writes into the buffer. -/
theorem C6_fps_shape (kfill garbage : List Nat → Int) (xyz : Tensor)
    (k B N : Nat) (h : xyz.shape = [B, N, 3]) :
    (FurthestPointSampling.forward kfill garbage xyz k).map Tensor.shape =
      .ok [B, k] := by
  simp [FurthestPointSampling.forward, resolve_pointnet, kernelFill,
        cudaIntTensor, Tensor.size, h, Except.map]

/-- Witness for C6 at B = 2, N = 5, k = 4. -/
theorem C6_fps_witness :
    (FurthestPointSampling.forward zeroF zeroF (exTensorF [2, 5, 3]) 4).map
        Tensor.shape = .ok [2, 4] :=
  C6_fps_shape zeroF zeroF (exTensorF [2, 5, 3]) 4 2 5 rfl

/-- Claim C7 (confirmed): for every call to the gather points operator with
features of shape (B, C, N) and indices of shape (B, k), the returned tensor
has shape (B, C, k). -/
theorem C7_gather_shape (kfill garbage : List Nat → Int) (points idx : Tensor)
    (B C N k : Nat) (hp : points.shape = [B, C, N]) (hi : idx.shape = [B, k]) :
    (GatherPoints.forward kfill garbage points idx).1.map Tensor.shape =
      .ok [B, C, k] := by
  simp [GatherPoints.forward, size3, hp, resolve_pointnet, kernelFill,
        cudaFloatTensor, Tensor.size, hi, Except.map]

/-- Witness for C7 at B = 1, C = 2, N = 3, k = 2. -/
theorem C7_gather_witness :
    ((GatherPoints.forward zeroF zeroF (exTensorF [1, 2, 3])
        (exTensorI [1, 2])).1).map Tensor.shape = .ok [1, 2, 2] :=
  C7_gather_shape zeroF zeroF (exTensorF [1, 2, 3]) (exTensorI [1, 2])
    1 2 3 2 rfl rfl

/-- Claim C1 (code bug): the ball query wrapper allocates its index tensor as
`torch.cuda.IntTensor(xyz.size(0), new_xyz.size(1), 3)` — the last dimension is
the literal 3, not `nsample`.  At radius 1, nsample = 4, xyz of shape (1, 2, 3)
and centers of shape (1, 1, 3), the returned tensor has shape (1, 1, 3), not
the (1, 1, 4) the claim (and the function's own docstring) promises. -/
theorem C1_ball_query_shape :
    (BallQuery.forward zeroF zeroF 1 4 (exTensorF [1, 2, 3])
        (exTensorF [1, 1, 3])).map Tensor.shape = .ok [1, 1, 3] ∧
    (BallQuery.forward zeroF zeroF 1 4 (exTensorF [1, 2, 3])
        (exTensorF [1, 1, 3])).map Tensor.shape ≠ .ok [1, 1, 4] := by
  refine ⟨rfl, fun h => ?_⟩
  have h2 : (Except.ok [1, 1, 3] : Except PyErr (List Nat)) = .ok [1, 1, 4] := h
  injection h2 with h3
  exact absurd h3 (by decide)

/-- Claim C9 (confirmed): the backward passes of furthest-point sampling,
three-nearest-neighbor, and ball query return `None` for every argument
position, whatever the incoming gradients are: no gradient is propagated. -/
theorem C9_backward_none (x a b c g : Option Tensor) :
    FurthestPointSampling.backward x a = (none, none) ∧
    ThreeNN.backward b c = (none, none) ∧
    BallQuery.backward g = (none, none, none, none) :=
  ⟨rfl, rfl, rfl⟩

/-- Claim C10 (confirmed): the gradient buffers that `ThreeInterpolate.backward`
and `GroupPoints.backward` hand to their scatter kernels are zero-initialized
(`.zero_()`), for every allocation garbage; the buffer `GatherPoints.backward`
hands to `pointnet.gather_points_grad` carries the allocation garbage
unchanged, hence is not zeroed. -/
theorem C10_grad_buffer_init (B c m C N : Nat) (garbage : List Nat → Int) :
    (ThreeInterpolate.gradBuffer B c m garbage).data = (fun _ => 0) ∧
    (GroupPoints.gradBuffer B C N garbage).data = (fun _ => 0) ∧
    (GatherPoints.gradBuffer B C N garbage).data = garbage ∧
    ∃ g : List Nat → Int, (GatherPoints.gradBuffer B C N g).data ≠ (fun _ => 0) := by
  exact ⟨rfl, rfl, rfl, oneF, fun h =>
    absurd (congrFun h []) (show (1 : Int) ≠ 0 from one_ne_zero)⟩

/-- Claim C8 (code bug): the three-nearest-neighbor wrapper is documented (and
specified) to return (B, n, 3) distance and index tensors, but its kernel line
reads `pointnet2.three_nn_wrapper(...)` while only `pointnet` is imported:
with contiguous (1, 1, 3) inputs the call raises `NameError` on `pointnet2`
instead of returning anything. -/
theorem C8_three_nn_fails :
    ThreeNN.forward zeroF zeroF zeroF (exTensorF [1, 1, 3]) (exTensorF [1, 1, 3]) =
      .error (PyErr.nameError "pointnet2") := rfl

/-- Counterexample to claim C5 as stated: a call to `ThreeNN.forward` with a
non-contiguous first input fails on the contiguity `assert` (AssertionError),
not with a name-resolution error — so not *every* call fails with `NameError`. -/
theorem C5_assert_counterexample :
    ThreeNN.forward zeroF zeroF zeroF (exTensorNC [1, 1, 3]) (exTensorF [1, 1, 3]) =
      .error PyErr.assertionError := rfl

/-- Claim C5 (amended): every call to the forward pass of the
three-nearest-neighbor, weighted interpolation, or group points operator whose
tensor inputs are contiguous and of the documented rank — ThreeNN's query and
reference points (B, n, 3) and (B, m, 3), ThreeInterpolate's points (B, c, m)
and index tensor (B, n, 3), GroupPoints' points and indices rank-3 — fails
with a name-resolution error on `pointnet2`, which is never imported (only
`pointnet` is); a non-contiguous input instead fails the contiguity assertion
first. -/
theorem C5_nameerror_amended (kf1 kf2 kf3 kf4 g : List Nat → Int)
    (unknown known points idx weight pts2 idx2 : Tensor)
    (B n m B1 c m1 n1 B2 C2 N2 np ns : Nat)
    (hu : unknown.contiguous = true) (hk : known.contiguous = true)
    (hus : unknown.shape = [B, n, 3]) (hks : known.shape = [B, m, 3])
    (hp : points.contiguous = true) (hi : idx.contiguous = true)
    (hw : weight.contiguous = true) (hps : points.shape = [B1, c, m1])
    (his : idx.shape = [B1, n1, 3])
    (hp2 : pts2.contiguous = true) (hi2 : idx2.contiguous = true)
    (hs2 : idx2.shape = [B2, np, ns]) (hps2 : pts2.shape = [B2, C2, N2]) :
    ThreeNN.forward kf1 kf2 g unknown known = .error (PyErr.nameError "pointnet2") ∧
    (ThreeInterpolate.forward kf3 g points idx weight).1 =
      .error (PyErr.nameError "pointnet2") ∧
    (GroupPoints.forward kf4 g pts2 idx2).1 =
      .error (PyErr.nameError "pointnet2") := by
  refine ⟨?_, ?_, ?_⟩
  · simp [ThreeNN.forward, pyAssert, hu, hk, size3, hus, hks, resolve_pointnet2,
          pyBindOk, pyBindErr, pyMapErr]
  · simp [ThreeInterpolate.forward, hp, hi, hw, size3, hps, his,
          resolve_pointnet2]
  · simp [GroupPoints.forward, hp2, hi2, size3, hs2, hps2, resolve_pointnet2]

/-- Witness for C5 at concrete contiguous inputs of the documented ranks. -/
theorem C5_nameerror_witness :
    ThreeNN.forward zeroF zeroF zeroF (exTensorF [1, 2, 3]) (exTensorF [1, 4, 3]) =
      .error (PyErr.nameError "pointnet2") ∧
    (ThreeInterpolate.forward zeroF zeroF (exTensorF [1, 2, 3])
        (exTensorI [1, 2, 3]) (exTensorF [1, 2, 3])).1 =
      .error (PyErr.nameError "pointnet2") ∧
    (GroupPoints.forward zeroF zeroF (exTensorF [1, 2, 3])
        (exTensorI [1, 2, 2])).1 = .error (PyErr.nameError "pointnet2") :=
  C5_nameerror_amended zeroF zeroF zeroF zeroF zeroF
    (exTensorF [1, 2, 3]) (exTensorF [1, 4, 3]) (exTensorF [1, 2, 3])
    (exTensorI [1, 2, 3]) (exTensorF [1, 2, 3]) (exTensorF [1, 2, 3])
    (exTensorI [1, 2, 2]) 1 2 4 1 2 3 2 1 2 3 2 2
    rfl rfl rfl rfl rfl rfl rfl rfl rfl rfl rfl rfl rfl

/-- Counterexample to claim C2 as stated: the ball query operator performs no
contiguity assertion at all — its forward succeeds on a non-contiguous points
tensor instead of failing fatally. -/
theorem C2_no_assert_counterexample :
    (exTensorNC [1, 2, 3]).contiguous = false ∧
    (BallQuery.forward zeroF zeroF 1 4 (exTensorNC [1, 2, 3])
        (exTensorF [1, 1, 3])).isOk = true :=
  ⟨rfl, rfl⟩

/-- Claim C2 (amended): contiguity of every tensor input is an asserted
precondition of `ThreeNN`, `ThreeInterpolate`, and `GroupPoints` — any
non-contiguous input makes their forward fail fatally on the assertion before
the kernel line — whereas `FurthestPointSampling`, `GatherPoints`, and
`BallQuery` perform no contiguity assertion: on inputs of the documented
shapes they proceed to the kernel regardless of contiguity. -/
theorem C2_contiguity_amended (kf1 kf2 kf3 kf4 kf5 kf6 kf7 g : List Nat → Int)
    (u k p i w gp gi xyz nxyz ptsB idxB : Tensor) (r : Rat)
    (ns B N Bq nq Bg Cg Ng kg : Nat)
    (h1 : u.contiguous = false ∨ k.contiguous = false)
    (h2 : p.contiguous = false ∨ i.contiguous = false ∨ w.contiguous = false)
    (h3 : gp.contiguous = false ∨ gi.contiguous = false)
    (hx : xyz.shape = [B, N, 3]) (hnx : nxyz.shape = [Bq, nq, 3])
    (h4 : ptsB.shape = [Bg, Cg, Ng]) (h5 : idxB.shape = [Bg, kg]) :
    ThreeNN.forward kf1 kf2 g u k = .error PyErr.assertionError ∧
    (ThreeInterpolate.forward kf3 g p i w).1 = .error PyErr.assertionError ∧
    (GroupPoints.forward kf4 g gp gi).1 = .error PyErr.assertionError ∧
    (FurthestPointSampling.forward kf5 g xyz ns).isOk = true ∧
    (GatherPoints.forward kf6 g ptsB idxB).1.isOk = true ∧
    (BallQuery.forward kf7 g r ns xyz nxyz).isOk = true := by
  refine ⟨?_, ?_, ?_, rfl, ?_, rfl⟩
  · rcases h1 with h | h
    · simp [ThreeNN.forward, pyAssert, h, pyBindOk, pyBindErr]
    · cases hu : u.contiguous <;>
        simp [ThreeNN.forward, pyAssert, h, hu, pyBindOk, pyBindErr]
  · rcases h2 with h | h | h <;> simp [ThreeInterpolate.forward, h]
  · rcases h3 with h | h <;> simp [GroupPoints.forward, h]
  · simp [GatherPoints.forward, size3, h4, resolve_pointnet, pyIsOk]

/-- Witness for C2 at concrete inputs: one non-contiguous input for each
asserting operator, and well-shaped inputs for the non-asserting ones. -/
theorem C2_contiguity_witness :
    ThreeNN.forward zeroF zeroF zeroF (exTensorNC [1, 1, 3]) (exTensorNC [1, 1, 3]) =
      .error PyErr.assertionError ∧
    (ThreeInterpolate.forward zeroF zeroF (exTensorNC [1, 2, 3])
        (exTensorI [1, 2, 3]) (exTensorF [1, 2, 3])).1 =
      .error PyErr.assertionError ∧
    (GroupPoints.forward zeroF zeroF (exTensorNC [1, 2, 3])
        (exTensorI [1, 2, 2])).1 = .error PyErr.assertionError ∧
    (FurthestPointSampling.forward zeroF zeroF (exTensorNC [1, 4, 3]) 2).isOk = true ∧
    (GatherPoints.forward zeroF zeroF (exTensorNC [1, 2, 3])
        (exTensorI [1, 2])).1.isOk = true ∧
    (BallQuery.forward zeroF zeroF 1 2 (exTensorNC [1, 4, 3])
        (exTensorF [1, 2, 3])).isOk = true :=
  C2_contiguity_amended zeroF zeroF zeroF zeroF zeroF zeroF zeroF zeroF
    (exTensorNC [1, 1, 3]) (exTensorNC [1, 1, 3]) (exTensorNC [1, 2, 3])
    (exTensorI [1, 2, 3]) (exTensorF [1, 2, 3]) (exTensorNC [1, 2, 3])
    (exTensorI [1, 2, 2]) (exTensorNC [1, 4, 3]) (exTensorF [1, 2, 3])
    (exTensorNC [1, 2, 3]) (exTensorI [1, 2]) 1 2 1 4 1 2 1 2 3 2
    (Or.inl rfl) (Or.inl rfl) (Or.inl rfl) rfl rfl rfl rfl

/-- Counterexample to claim C4 as stated: `ThreeInterpolate.forward` saves
`(idx, weight, m)` as its backward context — the saved state contains the
float-valued WEIGHT tensor itself, not only index tensors and shapes. -/
theorem C4_weight_saved_counterexample :
    (ThreeInterpolate.forward zeroF zeroF (exTensorF [1, 2, 3])
        (exTensorI [1, 2, 3]) (exTensorF [1, 2, 3])).2 =
      some (exTensorI [1, 2, 3], exTensorF [1, 2, 3], 3) ∧
    (exTensorF [1, 2, 3]).dtype = DType.float32 :=
  ⟨rfl, rfl⟩

/-- Claim C4 (amended): on inputs of the documented ranks, the state each
operator retains for the backward call is exactly: `(idx, C, N)` — the index
tensor and two shape components — for `GatherPoints`; `(idx, weight, m)` — the
index tensor, the interpolation weight tensor, and a shape component — for
`ThreeInterpolate`; and nothing at all for `GroupPoints`, whose save line sits
after the failing kernel line.  No point or feature tensor is ever saved; the
weight tensor of `ThreeInterpolate` is the one non-index tensor retained. -/
theorem C4_saved_state_amended (kf1 kf2 kf3 g : List Nat → Int)
    (points idx pts2 idx2 weight pts3 idx3 : Tensor) (B C N k B2 c m n : Nat)
    (h1 : points.shape = [B, C, N]) (h1i : idx.shape = [B, k])
    (h2 : pts2.contiguous = true) (h3 : idx2.contiguous = true)
    (h4 : weight.contiguous = true) (h5 : pts2.shape = [B2, c, m])
    (h6 : idx2.shape = [B2, n, 3]) :
    (GatherPoints.forward kf1 g points idx).2 = some (idx, C, N) ∧
    (ThreeInterpolate.forward kf2 g pts2 idx2 weight).2 = some (idx2, weight, m) ∧
    (GroupPoints.forward kf3 g pts3 idx3).2 = none := by
  refine ⟨?_, ?_, ?_⟩
  · simp [GatherPoints.forward, size3, h1, resolve_pointnet]
  · simp [ThreeInterpolate.forward, h2, h3, h4, size3, h5, h6, resolve_pointnet2]
  · by_cases hp : pts3.contiguous <;> by_cases hi : idx3.contiguous <;>
      simp [GroupPoints.forward, hp, hi] <;>
      rcases hsa : size3 idx3 with e | ⟨B3, np3, ns3⟩ <;> simp [hsa] <;>
      rcases hsb : size3 pts3 with e2 | ⟨B4, C4, N4⟩ <;>
      simp [hsb, resolve_pointnet2]

/-- Witness for C4 at concrete inputs of the documented ranks. -/
theorem C4_saved_state_witness :
    (GatherPoints.forward zeroF zeroF (exTensorF [1, 2, 3]) (exTensorI [1, 2])).2 =
      some (exTensorI [1, 2], 2, 3) ∧
    (ThreeInterpolate.forward zeroF zeroF (exTensorF [1, 4, 5])
        (exTensorI [1, 2, 3]) (exTensorF [1, 2, 3])).2 =
      some (exTensorI [1, 2, 3], exTensorF [1, 2, 3], 5) ∧
    (GroupPoints.forward zeroF zeroF (exTensorF [1, 2, 3])
        (exTensorI [1, 2, 2])).2 = none :=
  C4_saved_state_amended zeroF zeroF zeroF zeroF (exTensorF [1, 2, 3])
    (exTensorI [1, 2]) (exTensorF [1, 4, 5]) (exTensorI [1, 2, 3])
    (exTensorF [1, 2, 3]) (exTensorF [1, 2, 3]) (exTensorI [1, 2, 2])
    1 2 3 2 1 4 5 2 rfl rfl rfl rfl rfl rfl rfl

/-- Claim C3 (code bug): the query-and-group helper is documented to return a
(B, 3 + C, npoint, nsample) tensor, but its very first grouping step calls
`GroupPoints.forward`, whose kernel line references the unbound name
`pointnet2`: at radius 1, nsample = 4, coordinates of shape (1, 2, 3), centers
of shape (1, 1, 3), and features of shape (1, 2, 2), the forward raises
`NameError` instead of returning a tensor.  (Behind that error sit two further
divergences modelled in the definitions: `BallQuery.forward` allocates the
neighbor dimension as 3 rather than nsample, and the `use_xyz=False` branch
assigns the function object `group_points` instead of the grouped features.) -/
theorem C3_query_and_group_fails :
    QueryAndGroup.forward ⟨1, 4, true⟩ zeroF zeroF zeroF zeroF
        (exTensorF [1, 2, 3]) (exTensorF [1, 1, 3])
        (some (exTensorF [1, 2, 2])) =
      .error (PyErr.nameError "pointnet2") := rfl
